import Mathlib

/-!
# Verification of ts-bridge core semantics

A shallow embedding of the core of google/ts-bridge (metric records, the
InfluxDB/Datadog source adapters, the Stackdriver destination adapter and the
per-metric update pipeline), with theorems settling the specification claims.

Time values are modelled as integers (nanoseconds for InfluxDB and the metric
records, seconds for the Datadog query API, matching the units used by the Go
code).  Integer division of a nonnegative duration by 2 agrees between Go
(`time.Duration` division, truncating) and Lean's `Int` division, which is the
only division the code performs.
-/

namespace Record

/-- `record.DatastoreMetricRecord`: per-metric state persisted in Datastore
(`record/record.go`). -/
structure DatastoreMetricRecord where
  name : String
  query : String
  lastUpdate : Int
  lastAttempt : Int
  lastStatus : String
  counterStartTime : Int
deriving Repr, DecidableEq

/-- A Datastore keyed by metric name, as used by `MetricRecord.write`
(`datastore.Put` under the record's key). -/
def Store := String → Option DatastoreMetricRecord

/-- `DatastoreMetricRecord.write`: persist the record under its name key. -/
def write (s : Store) (m : DatastoreMetricRecord) : Store :=
  fun n => if n = m.name then some m else s n

/-- `DatastoreMetricRecord.SetCounterStartTime` (record/record.go:193-197):
sets `CounterStartTime` and persists. -/
def SetCounterStartTime (m : DatastoreMetricRecord) (start : Int) :
    DatastoreMetricRecord :=
  { m with counterStartTime := start }

/-- `DatastoreMetricRecord.UpdateError` (record/record.go:199-205): sets
`LastStatus` to "ERROR: " plus the message and `LastAttempt` to now. -/
def UpdateError (m : DatastoreMetricRecord) (now : Int) (e : String) :
    DatastoreMetricRecord :=
  { m with lastStatus := "ERROR: " ++ e, lastAttempt := now }

/-- `DatastoreMetricRecord.UpdateSuccess` (record/record.go:207-216): sets
`LastStatus` to "OK: " plus the message, `LastAttempt` to now, and `LastUpdate`
to now when at least one point was written. -/
def UpdateSuccess (m : DatastoreMetricRecord) (now : Int) (points : Int)
    (msg : String) : DatastoreMetricRecord :=
  let m1 := { m with lastStatus := "OK: " ++ msg, lastAttempt := now }
  if points > 0 then { m1 with lastUpdate := now } else m1

end Record

namespace BoltDB

/-- `boltdb.StoredMetricRecord` (boltdb/boltdb_record.go): the embedded-store
backend's per-metric state; same fields as the Datastore backend. -/
structure StoredMetricRecord where
  name : String
  query : String
  lastUpdate : Int
  lastAttempt : Int
  lastStatus : String
  counterStartTime : Int
deriving Repr, DecidableEq

/-- A BoltDB store keyed by metric name (`bolthold` upserts under `m.Name`). -/
def Store := String → Option StoredMetricRecord

/-- `StoredMetricRecord.write`: `Store.Upsert(m.Name, m)`. -/
def write (s : Store) (m : StoredMetricRecord) : Store :=
  fun n => if n = m.name then some m else s n

/-- `StoredMetricRecord.SetCounterStartTime` (boltdb/boltdb_record.go:64-67). -/
def SetCounterStartTime (m : StoredMetricRecord) (start : Int) :
    StoredMetricRecord :=
  { m with counterStartTime := start }

/-- `StoredMetricRecord.UpdateError` (boltdb/boltdb_record.go:69-75). -/
def UpdateError (m : StoredMetricRecord) (now : Int) (e : String) :
    StoredMetricRecord :=
  { m with lastStatus := "ERROR: " ++ e, lastAttempt := now }

/-- `StoredMetricRecord.UpdateSuccess` (boltdb/boltdb_record.go:77-86). -/
def UpdateSuccess (m : StoredMetricRecord) (now : Int) (points : Int)
    (msg : String) : StoredMetricRecord :=
  let m1 := { m with lastStatus := "OK: " ++ msg, lastAttempt := now }
  if points > 0 then { m1 with lastUpdate := now } else m1

end BoltDB

namespace InfluxDB

/-- `influxdb.MetricConfig` (the version with the `Cumulative` flag).  The
`queryIntervalResult` field models the outcome of `MetricConfig.queryInterval`,
which extracts the `GROUP BY time(w)` bucket width via the external `influxql`
parser; it is data here because the parser is an external library. -/
structure MetricConfig where
  query : String
  database : String
  timeAggregated : Bool
  cumulative : Bool
  queryIntervalResult : Except String Int

/-- `influxdb.Metric` (influxdb/metric.go): a configured InfluxDB source
metric.  `offsetDuration` is the `min_point_age` offset; durations are in
nanoseconds. -/
structure Metric where
  name : String
  config : MetricConfig
  offsetDuration : Int
  counterResetInterval : Int

/-- A parsed InfluxDB point (`influxdb/metric.go` `point`): a timestamp in
nanoseconds and a value (carried opaquely; the code never computes on it). -/
structure Point (α : Type) where
  timestamp : Int
  value : α
deriving Repr, DecidableEq

/-- Result of `Metric.counterStartTime`: the (possibly updated) record, whether
`SetCounterStartTime` was invoked, and the returned start time. -/
structure CounterStartResult where
  record : Record.DatastoreMetricRecord
  wasReset : Bool
  start : Int
deriving Repr, DecidableEq

/-- `Metric.counterStartTime` (influxdb/metric.go:136-170): resets the
persisted counter start time when it is older than `counterResetInterval`,
choosing `lastPoint` (time-aggregated) or `lastPoint + 1ns` (non-aggregated)
in the common case and `now - counterResetInterval/2` in the rare case, then
returns the record's counter start time. -/
def counterStartTime (m : Metric) (now lastPoint : Int)
    (rec : Record.DatastoreMetricRecord) : CounterStartResult :=
  if now - rec.counterStartTime > m.counterResetInterval then
    let start :=
      if now - lastPoint ≤ m.counterResetInterval then
        if m.config.timeAggregated then lastPoint else lastPoint + 1
      else
        now - m.counterResetInterval / 2
    let rec' := Record.SetCounterStartTime rec start
    { record := rec', wasReset := true, start := rec'.counterStartTime }
  else
    { record := rec, wasReset := false, start := rec.counterStartTime }

/-- The query window `[startTime, endTime)` built by `Metric.StackdriverData`
(influxdb/metric.go:78-95). -/
structure QueryWindow where
  startTime : Int
  endTime : Int
deriving Repr, DecidableEq

/-- The choice of query window in `Metric.StackdriverData`
(influxdb/metric.go:78-95): start from the latest point (resolved through
`counterStartTime` for cumulative metrics, shifted by 1ns for non-aggregated
gauges), end at `now` minus the `min_point_age` offset. -/
def stackdriverDataWindow (m : Metric) (now lastPoint : Int)
    (rec : Record.DatastoreMetricRecord) : QueryWindow :=
  let startTime :=
    if m.config.cumulative then (counterStartTime m now lastPoint rec).start
    else if !m.config.timeAggregated then lastPoint + 1
    else lastPoint
  { startTime := startTime, endTime := now - m.offsetDuration }

/-- The loop of `Metric.filterPoints` (influxdb/metric.go:210-237): for
time-aggregated queries move each timestamp forward by the bucket width and
drop rows past the window end; for cumulative queries drop rows at or before
the last reported point. -/
def filterLoop {α : Type} (cfg : MetricConfig) (lastPoint endTime : Int) :
    List (Point α) → Except String (List (Point α))
  | [] => .ok []
  | p :: rest =>
    if cfg.timeAggregated = true then
      match cfg.queryIntervalResult with
      | .error e => .error e
      | .ok w =>
        if p.timestamp + w > endTime then
          filterLoop cfg lastPoint endTime rest
        else if p.timestamp + w ≤ lastPoint then
          filterLoop cfg lastPoint endTime rest
        else
          (filterLoop cfg lastPoint endTime rest).map
            (fun out => { p with timestamp := p.timestamp + w } :: out)
    else
      if p.timestamp ≤ lastPoint then
        filterLoop cfg lastPoint endTime rest
      else
        (filterLoop cfg lastPoint endTime rest).map (fun out => p :: out)

/-- `Metric.filterPoints` (influxdb/metric.go:202-240): non-aggregated gauge
metrics are passed through unfiltered; otherwise the loop above runs. -/
def filterPoints {α : Type} (m : Metric) (lastPoint endTime : Int)
    (points : List (Point α)) : Except String (List (Point α)) :=
  if !m.config.timeAggregated && !m.config.cumulative then .ok points
  else filterLoop m.config lastPoint endTime points

end InfluxDB

namespace Datadog

/-- A Datadog data point (`ddapi.DataPoint`): a timestamp (seconds) and a
value, carried opaquely. -/
structure DataPoint (α : Type) where
  timestamp : Int
  value : α
deriving Repr, DecidableEq

/-- The Datadog query window of `Metric.StackdriverData`
(datadog/metric.go:70-86): `QueryMetrics(since.Unix()+1, time.Now().Unix())`,
i.e. from one second past the latest point up to the current time. -/
def queryWindow (since now : Int) : Int × Int := (since + 1, now)

/-- `Metric.filterPoints` (datadog/metric.go:89-101): keep only points whose
age `now - timestamp` is at least `minPointAge`. -/
def filterPoints {α : Type} (now minPointAge : Int)
    (points : List (DataPoint α)) : List (DataPoint α) :=
  points.filter (fun p => minPointAge ≤ now - p.timestamp)

end Datadog

namespace Stackdriver

/-- Stackdriver metric kinds (`metricpb.MetricDescriptor_MetricKind`); the
zero value is `unspecified`, matching the proto enum. -/
inductive MetricKind where
  | unspecified
  | gauge
  | delta
  | cumulative
deriving Repr, DecidableEq

/-- Stackdriver value types (`metricpb.MetricDescriptor_ValueType`); the zero
value is `unspecified`. -/
inductive ValueType where
  | unspecified
  | bool
  | int64
  | double
  | distribution
deriving Repr, DecidableEq

/-- The part of a Stackdriver metric descriptor that `setDescriptor`
compares. -/
structure MetricDescriptor where
  kind : MetricKind
  valueType : ValueType
deriving Repr, DecidableEq

/-- Go's nil-tolerant getter `GetMetricKind`: on a nil descriptor it returns
the zero enum value. -/
def getMetricKind : Option MetricDescriptor → MetricKind
  | none => .unspecified
  | some d => d.kind

/-- Go's nil-tolerant getter `GetValueType`. -/
def getValueType : Option MetricDescriptor → ValueType
  | none => .unspecified
  | some d => d.valueType

/-- Which requests `setDescriptor` issued. -/
structure DescriptorActions where
  deleted : Bool
  created : Bool
deriving Repr, DecidableEq

/-- `Adapter.setDescriptor` (stackdriver/adapter.go:106-135): keep the
existing descriptor when its kind and value type match the desired one;
otherwise delete the existing descriptor (when there is one) and create the
new one.  `current` is the result of `getDescriptor` (`none` when absent). -/
def setDescriptor (current : Option MetricDescriptor)
    (desired : MetricDescriptor) : DescriptorActions :=
  if getMetricKind current = desired.kind ∧
      getValueType current = desired.valueType then
    { deleted := false, created := false }
  else
    { deleted := current.isSome, created := true }

/-- The fold of `LatestTimestamp` over a series' point end times
(stackdriver/adapter.go:165-173): `if ts.After(latest) { latest = ts }`. -/
def latestFold (latest : Int) (points : List Int) : Int :=
  points.foldl (fun acc ts => if acc < ts then ts else acc) latest

/-- `Adapter.LatestTimestamp` (stackdriver/adapter.go:139-177), with the
descriptor lookup and the time-series listing supplied as data.  A series is
modelled by the list of its points' end times. -/
def LatestTimestamp (now lookBackInterval : Int)
    (desc : Option MetricDescriptor) (series : List (List Int)) :
    Except String Int :=
  let latest := now - lookBackInterval
  match desc with
  | none => .ok latest
  | some _ =>
    match series with
    | [] => .ok latest
    | [s] => .ok (latestFold latest s)
    | _ => .error "Found several time series with the same name"

theorem latestFold_init_le (l : List Int) (a : Int) : a ≤ latestFold a l := by
  induction l generalizing a with
  | nil => exact le_refl a
  | cons b t ih =>
    show a ≤ latestFold (if a < b then b else a) t
    refine le_trans ?_ (ih _)
    split <;> omega

theorem latestFold_is_ub (l : List Int) (a : Int) :
    ∀ t ∈ l, t ≤ latestFold a l := by
  induction l generalizing a with
  | nil => intro t ht; cases ht
  | cons b t ih =>
    intro x hx
    rcases List.mem_cons.mp hx with hxb | hxt
    · rw [hxb]
      show b ≤ latestFold (if a < b then b else a) t
      refine le_trans ?_ (latestFold_init_le t _)
      split <;> omega
    · exact ih _ x hxt

theorem latestFold_mem_cons (a : Int) (l : List Int) :
    latestFold a l ∈ a :: l := by
  induction l generalizing a with
  | nil => exact List.mem_singleton.mpr rfl
  | cons b t ih =>
    show latestFold (if a < b then b else a) t ∈ a :: b :: t
    have h := ih (if a < b then b else a)
    rcases List.mem_cons.mp h with h1 | h2
    · rw [h1]; split
      · exact List.mem_cons_of_mem _ (List.mem_cons_self _ _)
      · exact List.mem_cons_self _ _
    · exact List.mem_cons_of_mem _ (List.mem_cons_of_mem _ h2)

end Stackdriver

/-- C5: `LatestTimestamp` returns `now − lookback_interval` when the metric
descriptor is absent or when zero series are found; it fails with a
multi-series error when more than one series is returned; otherwise it returns
the maximum end time across the single series's points (all of which lie in
the lookback window). -/
theorem sd_latest_timestamp_spec (now lookBack : Int)
    (d : Stackdriver.MetricDescriptor)
    (desc : Option Stackdriver.MetricDescriptor)
    (series : List (List Int)) (s : List Int) :
    (Stackdriver.LatestTimestamp now lookBack none series =
      .ok (now - lookBack)) ∧
    (Stackdriver.LatestTimestamp now lookBack desc [] =
      .ok (now - lookBack)) ∧
    (1 < series.length →
      Stackdriver.LatestTimestamp now lookBack (some d) series =
        .error "Found several time series with the same name") ∧
    (s ≠ [] → (∀ t ∈ s, now - lookBack ≤ t) →
      ∃ mx, Stackdriver.LatestTimestamp now lookBack (some d) [s] = .ok mx ∧
        mx ∈ s ∧ ∀ t ∈ s, t ≤ mx) := by
  refine ⟨rfl, ?_, ?_, ?_⟩
  · cases desc <;> rfl
  · intro hlen
    match series with
    | [] => simp at hlen
    | [_] => simp at hlen
    | _ :: _ :: _ => rfl
  · intro hne hwin
    refine ⟨Stackdriver.latestFold (now - lookBack) s, rfl, ?_,
      Stackdriver.latestFold_is_ub s (now - lookBack)⟩
    match s, hne with
    | a :: t, _ =>
      have ha : now - lookBack ≤ a := hwin a (List.mem_cons_self _ _)
      have : Stackdriver.latestFold (now - lookBack) (a :: t) =
          Stackdriver.latestFold a t := by
        show Stackdriver.latestFold (if now - lookBack < a then a
          else now - lookBack) t = _
        congr 1
        split <;> omega
      rw [this]
      exact Stackdriver.latestFold_mem_cons a t

/-- Witness for C5: descriptor present, a single series with end times
`[5, 9, 7]`, `now = 10`, lookback `6`: the result is `9`, the maximum end
time. -/
theorem sd_latest_timestamp_spec_witness :
    ([5, 9, 7] : List Int) ≠ [] ∧
    (∀ t ∈ ([5, 9, 7] : List Int), (10 : Int) - 6 ≤ t) ∧
    ∃ mx, Stackdriver.LatestTimestamp 10 6
        (some ⟨Stackdriver.MetricKind.gauge, Stackdriver.ValueType.double⟩)
        [[5, 9, 7]] = .ok mx ∧ mx ∈ ([5, 9, 7] : List Int) ∧
      ∀ t ∈ ([5, 9, 7] : List Int), t ≤ mx :=
  ⟨by decide, by decide,
    (sd_latest_timestamp_spec 10 6
      ⟨Stackdriver.MetricKind.gauge, Stackdriver.ValueType.double⟩
      none [] [5, 9, 7]).2.2.2 (by decide) (by decide)⟩

/-- C6: descriptor reconciliation in `setDescriptor`: matching
`(kind, value_type)` issues no delete and no create; an existing descriptor
with a different kind or value type is deleted and the new one created; an
absent descriptor leads to a create with no delete (the program's desired
descriptors always carry a specified, nonzero metric kind). -/
theorem sd_descriptor_reconciliation
    (current : Option Stackdriver.MetricDescriptor)
    (c desired : Stackdriver.MetricDescriptor) :
    (current = some c → c.kind = desired.kind → c.valueType = desired.valueType →
      Stackdriver.setDescriptor current desired =
        { deleted := false, created := false }) ∧
    (current = some c →
      ¬(c.kind = desired.kind ∧ c.valueType = desired.valueType) →
      Stackdriver.setDescriptor current desired =
        { deleted := true, created := true }) ∧
    (current = none → desired.kind ≠ Stackdriver.MetricKind.unspecified →
      Stackdriver.setDescriptor current desired =
        { deleted := false, created := true }) := by
  refine ⟨?_, ?_, ?_⟩
  · intro hc hk hv
    subst hc
    simp [Stackdriver.setDescriptor, Stackdriver.getMetricKind,
      Stackdriver.getValueType, hk, hv]
  · intro hc hne
    subst hc
    simp only [Stackdriver.setDescriptor, Stackdriver.getMetricKind,
      Stackdriver.getValueType]
    rw [if_neg hne]
    rfl
  · intro hc hk
    subst hc
    simp only [Stackdriver.setDescriptor, Stackdriver.getMetricKind,
      Stackdriver.getValueType]
    rw [if_neg ?_]
    · rfl
    · intro h
      exact hk (h.1.symm)

/-- Witness for C6: an existing GAUGE/DOUBLE descriptor versus a desired
CUMULATIVE/DOUBLE descriptor leads to one delete and one create. -/
theorem sd_descriptor_reconciliation_witness :
    (some (⟨Stackdriver.MetricKind.gauge, Stackdriver.ValueType.double⟩ :
        Stackdriver.MetricDescriptor) =
      some ⟨Stackdriver.MetricKind.gauge, Stackdriver.ValueType.double⟩) ∧
    ¬((Stackdriver.MetricKind.gauge = Stackdriver.MetricKind.cumulative) ∧
      (Stackdriver.ValueType.double = Stackdriver.ValueType.double)) ∧
    Stackdriver.setDescriptor
      (some ⟨Stackdriver.MetricKind.gauge, Stackdriver.ValueType.double⟩)
      ⟨Stackdriver.MetricKind.cumulative, Stackdriver.ValueType.double⟩ =
      { deleted := true, created := true } :=
  ⟨rfl, by decide,
    (sd_descriptor_reconciliation
      (some ⟨Stackdriver.MetricKind.gauge, Stackdriver.ValueType.double⟩)
      ⟨Stackdriver.MetricKind.gauge, Stackdriver.ValueType.double⟩
      ⟨Stackdriver.MetricKind.cumulative, Stackdriver.ValueType.double⟩).2.1
      rfl (by decide)⟩

/-- A sample non-aggregated cumulative InfluxDB config, for concrete checks. -/
def sampleConfigNonAgg : InfluxDB.MetricConfig :=
  ⟨"q", "d", false, true, Except.error "no interval"⟩

/-- A sample time-aggregated cumulative InfluxDB config. -/
def sampleConfigAgg : InfluxDB.MetricConfig := ⟨"q", "d", true, true, Except.ok 60⟩

/-- A sample metric with the non-aggregated config and a reset interval of 10ns. -/
def sampleMetricNonAgg : InfluxDB.Metric := ⟨"m", sampleConfigNonAgg, 1, 10⟩

/-- A sample metric with the time-aggregated config and a reset interval of 10ns. -/
def sampleMetricAgg : InfluxDB.Metric := ⟨"m", sampleConfigAgg, 1, 10⟩

/-- A sample record whose counter start time is 0. -/
def sampleRecordZero : Record.DatastoreMetricRecord := ⟨"m", "q", 95, 0, "", 0⟩

/-- C1: for a cumulative InfluxDB metric, an update resets the persisted
counter start time iff `now − counter_start_time > counter_reset_interval`;
when the reset fires and `now − last_update ≤ counter_reset_interval` the new
anchor is `last_update` for time-aggregated queries and `last_update + 1ns`
for non-aggregated queries; when the reset fires and
`now − last_update > counter_reset_interval` the new anchor is
`now − counter_reset_interval / 2`. -/
theorem influx_counter_reset_cases (m : InfluxDB.Metric) (now lastPoint : Int)
    (rec : Record.DatastoreMetricRecord) :
    ((InfluxDB.counterStartTime m now lastPoint rec).wasReset = true ↔
      now - rec.counterStartTime > m.counterResetInterval) ∧
    (now - rec.counterStartTime > m.counterResetInterval →
      now - lastPoint ≤ m.counterResetInterval →
      (InfluxDB.counterStartTime m now lastPoint rec).record.counterStartTime =
        (if m.config.timeAggregated then lastPoint else lastPoint + 1)) ∧
    (now - rec.counterStartTime > m.counterResetInterval →
      now - lastPoint > m.counterResetInterval →
      (InfluxDB.counterStartTime m now lastPoint rec).record.counterStartTime =
        now - m.counterResetInterval / 2) := by
  unfold InfluxDB.counterStartTime Record.SetCounterStartTime
  split_ifs with h1 h2 h3 <;> simp_all

/-- Witness for C1: at `now = 100`, `last_update = 95`, previous anchor `0`,
reset interval `10ns`, for a non-aggregated cumulative metric the reset fires
and the new anchor is `96 = last_update + 1ns`. -/
theorem influx_counter_reset_cases_witness :
    (100 : Int) - sampleRecordZero.counterStartTime >
        sampleMetricNonAgg.counterResetInterval ∧
    (100 : Int) - 95 ≤ sampleMetricNonAgg.counterResetInterval ∧
    (InfluxDB.counterStartTime sampleMetricNonAgg 100 95
        sampleRecordZero).record.counterStartTime = 96 :=
  ⟨by decide, by decide,
    ((influx_counter_reset_cases sampleMetricNonAgg 100 95
        sampleRecordZero).2.1 (by decide) (by decide)).trans (by decide)⟩

/-- Counterexample for C2 as stated: with reset interval `10`, `now = 100`,
previous anchor `0` and `last_update = 200` (which satisfies the claim's
stated precondition `last_update ≥ counter_start_time`), the reset fires for a
time-aggregated metric but the new anchor is `200 > now`, violating
"the new anchor is at most `now`". -/
theorem influx_counter_anchor_counterexample :
    sampleRecordZero.counterStartTime ≤ (200 : Int) ∧
    (InfluxDB.counterStartTime sampleMetricAgg 100 200
        sampleRecordZero).wasReset = true ∧
    ¬ ((InfluxDB.counterStartTime sampleMetricAgg 100 200
        sampleRecordZero).record.counterStartTime ≤ 100) := by
  refine ⟨by decide, by decide, by decide⟩

/-- C2 (amended): over one update of a cumulative metric, provided the reset
interval is nonnegative and `last_update < now` (in addition to the claim's
precondition `last_update ≥ counter_start_time`), the counter start time is
non-decreasing; when a reset fires the new anchor is strictly greater than the
previous anchor and at most `now`; when no reset fires it is unchanged. -/
theorem influx_counter_anchor_monotone (m : InfluxDB.Metric) (now lastPoint : Int)
    (rec : Record.DatastoreMetricRecord)
    (hint : 0 ≤ m.counterResetInterval)
    (hpre : rec.counterStartTime ≤ lastPoint)
    (hlt : lastPoint < now) :
    rec.counterStartTime ≤
      (InfluxDB.counterStartTime m now lastPoint rec).record.counterStartTime ∧
    ((InfluxDB.counterStartTime m now lastPoint rec).wasReset = true →
      rec.counterStartTime <
        (InfluxDB.counterStartTime m now lastPoint rec).record.counterStartTime ∧
      (InfluxDB.counterStartTime m now lastPoint rec).record.counterStartTime ≤ now) ∧
    ((InfluxDB.counterStartTime m now lastPoint rec).wasReset = false →
      (InfluxDB.counterStartTime m now lastPoint rec).record.counterStartTime =
        rec.counterStartTime) := by
  unfold InfluxDB.counterStartTime Record.SetCounterStartTime
  split_ifs with h1 h2 h3 <;> simp_all <;> omega

/-- Witness for C2: at `now = 100`, `last_update = 95`, previous anchor `0`,
reset interval `10ns`, the reset fires and the new anchor `96` is strictly
above `0` and at most `100`. -/
theorem influx_counter_anchor_monotone_witness :
    (0 : Int) ≤ sampleMetricNonAgg.counterResetInterval ∧
    sampleRecordZero.counterStartTime ≤ (95 : Int) ∧
    (95 : Int) < 100 ∧
    (sampleRecordZero.counterStartTime <
      (InfluxDB.counterStartTime sampleMetricNonAgg 100 95
          sampleRecordZero).record.counterStartTime ∧
     (InfluxDB.counterStartTime sampleMetricNonAgg 100 95
          sampleRecordZero).record.counterStartTime ≤ 100) :=
  ⟨by decide, by decide, by decide,
    (influx_counter_anchor_monotone sampleMetricNonAgg 100 95 sampleRecordZero
        (by decide) (by decide) (by decide)).2.1 (by decide)⟩

namespace Datadog

/-- `datadog.MetricConfig` of the cumulative-capable revision of
`datadog/metric.go` (staged as the third segment of
`src/datadog/metric_test.go`, after the README segment): adds the
`Cumulative` flag to the query and key parameters. -/
structure MetricConfig where
  apiKey : String
  applicationKey : String
  query : String
  cumulative : Bool

/-- `datadog.Metric` of the same revision: a configured Datadog source
metric with a `counterResetInterval`.  Times and durations in seconds,
the granularity of the Datadog query API (`from.Unix()`). -/
structure Metric where
  name : String
  config : MetricConfig
  minPointAge : Int
  counterResetInterval : Int

/-- Result of the Datadog `Metric.counterStartTime`: the (possibly updated)
record, whether `SetCounterStartTime` was invoked, and the returned start
time. -/
structure CounterStartResult where
  record : Record.DatastoreMetricRecord
  wasReset : Bool
  start : Int
deriving Repr, DecidableEq

/-- `Metric.counterStartTime` of the cumulative-capable Datadog revision
(staged segment of `src/datadog/metric_test.go`): like the InfluxDB one,
except that the common case advances the last point by one second (a Datadog
timestamp X covers the data between X and X+1s), and returns the record's
counter start time. -/
def counterStartTime (m : Metric) (now lastPoint : Int)
    (rec : Record.DatastoreMetricRecord) : CounterStartResult :=
  if now - rec.counterStartTime > m.counterResetInterval then
    let start :=
      if now - lastPoint ≤ m.counterResetInterval then lastPoint + 1
      else now - m.counterResetInterval / 2
    let rec' := Record.SetCounterStartTime rec start
    { record := rec', wasReset := true, start := rec'.counterStartTime }
  else
    { record := rec, wasReset := false, start := rec.counterStartTime }

/-- The `from` selection of the cumulative-capable `Metric.StackdriverData`
(staged segment of `src/datadog/metric_test.go`): `from = lastPoint + 1s`,
replaced by the `counterStartTime` result for cumulative metrics; the query
then runs over `[from, now]`. -/
def stackdriverDataFrom (m : Metric) (now lastPoint : Int)
    (rec : Record.DatastoreMetricRecord) : Int :=
  if m.config.cumulative = true then
    (counterStartTime m now lastPoint rec).start
  else lastPoint + 1

/-- `Metric.metricKind` of the cumulative-capable Datadog revision:
CUMULATIVE for metrics with the cumulative flag, GAUGE otherwise. -/
def metricKind (m : Metric) : Stackdriver.MetricKind :=
  if m.config.cumulative = true then .cumulative else .gauge

/-- The kind and value-type fields of `Metric.metricDescriptor` of the
cumulative-capable Datadog revision: kind from `metricKind`, value type
DOUBLE. -/
def metricDescriptor (m : Metric) : Stackdriver.MetricDescriptor :=
  { kind := metricKind m, valueType := Stackdriver.ValueType.double }

end Datadog

/-- A sample cumulative Datadog config, for concrete checks. -/
def sampleDDConfig : Datadog.MetricConfig := ⟨"k", "a", "cumsum(q)", true⟩

/-- A sample cumulative Datadog metric with a reset interval of 1800s. -/
def sampleDDMetric : Datadog.Metric := ⟨"m", sampleDDConfig, 90, 1800⟩

namespace TsBridge

/-- The outcome of one `Metric.Update`: the metric record as it stands after
the update, and the error (if any) returned to the sync engine. -/
structure UpdateResult where
  record : Record.DatastoreMetricRecord
  ret : Option String
deriving Repr, DecidableEq

/-- Go's pattern `if err = rec.UpdateError(...); err != nil { return err };
return nil`: the update's return value is exactly the record-write outcome. -/
def retOf (recWrite : Except String Unit) : Option String :=
  match recWrite with
  | .ok _ => none
  | .error w => some w

/-- `Metric.Update` (tsbridge metric.go:130-165): query the destination's
latest timestamp, fetch source data, write any points, then record the
outcome on the metric record.  The results of the destination
`LatestTimestamp` call, the source `StackdriverData` call, the destination
`CreateTimeseries` call and the metadata-store write are supplied as data.
The success message omits the wall-clock `[took ...]` suffix, which is not
modelled. -/
def update {α : Type} (rec : Record.DatastoreMetricRecord) (now : Int)
    (latest : Except String Int)
    (sourceData : Except String (List α))
    (createTs : Except String Unit)
    (recWrite : Except String Unit) : UpdateResult :=
  match latest with
  | .error e =>
    { record := Record.UpdateError rec now
        ("failed to get latest timestamp: " ++ e),
      ret := retOf recWrite }
  | .ok l =>
    match sourceData with
    | .error e =>
      { record := Record.UpdateError rec now ("failed to get data: " ++ e),
        ret := retOf recWrite }
    | .ok ts =>
      let success : UpdateResult :=
        { record := Record.UpdateSuccess rec now (ts.length : Int)
            (toString ts.length ++ " new points found since " ++ toString l),
          ret := retOf recWrite }
      if 0 < ts.length then
        match createTs with
        | .error e =>
          { record := Record.UpdateError rec now
              ("failed to write to Stackdriver: " ++ e),
            ret := retOf recWrite }
        | .ok _ => success
      else success

theorem retOf_eq_some {w : Except String Unit} {r : String}
    (h : retOf w = some r) : w = Except.error r := by
  cases w with
  | ok u => simp [retOf] at h
  | error e =>
    simp only [retOf, Option.some.injEq] at h
    rw [h]

theorem update_ret_eq {α : Type} (rec : Record.DatastoreMetricRecord)
    (now : Int) (latest : Except String Int)
    (sourceData : Except String (List α)) (createTs : Except String Unit)
    (recWrite : Except String Unit) :
    (update rec now latest sourceData createTs recWrite).ret = retOf recWrite := by
  unfold update
  cases latest with
  | error e => rfl
  | ok l =>
    cases sourceData with
    | error e => rfl
    | ok ts =>
      dsimp only
      split
      · cases createTs <;> rfl
      · rfl

end TsBridge

/-- Helper for C9: on a time-aggregated config whose bucket width parses to
`w`, the filter loop succeeds, and every surviving row is an input row with
its timestamp moved to `t + w`, bounded by the window end. -/
theorem filterLoop_agg_spec {α : Type} (cfg : InfluxDB.MetricConfig)
    (lastPoint endTime w : Int)
    (hagg : cfg.timeAggregated = true)
    (hw : cfg.queryIntervalResult = Except.ok w)
    (points : List (InfluxDB.Point α)) :
    ∃ out, InfluxDB.filterLoop cfg lastPoint endTime points = Except.ok out ∧
      ∀ q ∈ out, q.timestamp ≤ endTime ∧
        ∃ p ∈ points, q.timestamp = p.timestamp + w ∧ q.value = p.value := by
  induction points with
  | nil => exact ⟨[], rfl, fun q hq => absurd hq (List.not_mem_nil q)⟩
  | cons p rest ih =>
    obtain ⟨out, hout, hspec⟩ := ih
    simp only [InfluxDB.filterLoop, hagg, hw, if_true]
    split_ifs with h1 h2
    · exact ⟨out, hout, fun q hq =>
        ⟨(hspec q hq).1,
          (hspec q hq).2.elim fun p' hp' =>
            ⟨p', List.mem_cons_of_mem p hp'.1, hp'.2⟩⟩⟩
    · exact ⟨out, hout, fun q hq =>
        ⟨(hspec q hq).1,
          (hspec q hq).2.elim fun p' hp' =>
            ⟨p', List.mem_cons_of_mem p hp'.1, hp'.2⟩⟩⟩
    · rw [hout]
      refine ⟨{ p with timestamp := p.timestamp + w } :: out, rfl, ?_⟩
      intro q hq
      rcases List.mem_cons.mp hq with hq1 | hq2
      · subst hq1
        refine ⟨?_, p, List.mem_cons_self p rest, rfl, rfl⟩
        show p.timestamp + w ≤ endTime
        omega
      · exact ⟨(hspec q hq2).1,
          (hspec q hq2).2.elim fun p' hp' =>
            ⟨p', List.mem_cons_of_mem p hp'.1, hp'.2⟩⟩

/-- C9: for a time-aggregated InfluxDB metric with bucket width `w` extracted
from the query's `GROUP BY time(w)`, `filterPoints` rewrites each surviving
row's timestamp from `t` to `t + w` (keeping its value), and every row whose
rewritten timestamp exceeds the query window's end is discarded (no surviving
row has a timestamp above the end). -/
theorem influx_time_aggregated_rewrite {α : Type} (m : InfluxDB.Metric)
    (lastPoint endTime w : Int) (points : List (InfluxDB.Point α))
    (hagg : m.config.timeAggregated = true)
    (hw : m.config.queryIntervalResult = Except.ok w) :
    ∃ out, InfluxDB.filterPoints m lastPoint endTime points = Except.ok out ∧
      ∀ q ∈ out, q.timestamp ≤ endTime ∧
        ∃ p ∈ points, q.timestamp = p.timestamp + w ∧ q.value = p.value := by
  have h := filterLoop_agg_spec m.config lastPoint endTime w hagg hw points
  simpa [InfluxDB.filterPoints, hagg] using h

/-- Witness for C9: with bucket width 60ns, window end 1000, input rows at
100 and 990: the first is rewritten to 160 and kept, the second (rewritten to
1050 > 1000) is discarded. -/
theorem influx_time_aggregated_rewrite_witness :
    InfluxDB.filterPoints sampleMetricAgg 0 1000
      [⟨100, (5 : Int)⟩, ⟨990, 6⟩] = Except.ok [⟨160, 5⟩] ∧
    (⟨160, (5 : Int)⟩ : InfluxDB.Point Int).timestamp ≤ 1000 := by
  obtain ⟨out, hout, hq⟩ := influx_time_aggregated_rewrite sampleMetricAgg
    0 1000 60 [⟨100, (5 : Int)⟩, ⟨990, 6⟩] rfl rfl
  have hconc : InfluxDB.filterPoints sampleMetricAgg 0 1000
      [⟨100, (5 : Int)⟩, ⟨990, 6⟩] = Except.ok [⟨160, 5⟩] := by rfl
  have hout2 : out = [⟨160, 5⟩] := by
    injection hout.symm.trans hconc
  refine ⟨hconc, (hq ⟨160, 5⟩ ?_).1⟩
  rw [hout2]
  exact List.mem_singleton.mpr rfl

/-- Counterexample for C8 as stated: the Datadog adapter's query window ends
at `now`, not at `now − min_point_age`: at `now = 1000` with
`min_point_age = 1` the query end is `1000`, not `999`. -/
theorem query_window_end_counterexample :
    ¬ ((Datadog.queryWindow 0 1000).2 = 1000 - 1) := by
  decide

/-- C8 (amended): the InfluxDB adapter chooses the query window end as
`now − min_point_age`; the Datadog adapter issues its query with end `now`
and instead enforces `min_point_age` by dropping response points younger than
`min_point_age`, so every surviving Datadog point has timestamp at most
`now − min_point_age`. -/
theorem query_window_end {α : Type} (m : InfluxDB.Metric)
    (now lastPoint since minPointAge : Int)
    (rec : Record.DatastoreMetricRecord)
    (points : List (Datadog.DataPoint α)) :
    (InfluxDB.stackdriverDataWindow m now lastPoint rec).endTime =
      now - m.offsetDuration ∧
    (Datadog.queryWindow since now).2 = now ∧
    (∀ q ∈ Datadog.filterPoints now minPointAge points,
      q.timestamp ≤ now - minPointAge) := by
  refine ⟨rfl, rfl, ?_⟩
  intro q hq
  have h := List.mem_filter.mp hq
  have h2 : minPointAge ≤ now - q.timestamp := by
    have := h.2
    simpa using this
  omega

/-- Witness for C8: at `now = 1000`, `min_point_age = 100`, the point at 950
is dropped and the point at 800 survives with timestamp at most 900. -/
theorem query_window_end_witness :
    (⟨800, (2 : Int)⟩ : Datadog.DataPoint Int) ∈
      Datadog.filterPoints 1000 100 [⟨950, (1 : Int)⟩, ⟨800, 2⟩] ∧
    ((⟨800, (2 : Int)⟩ : Datadog.DataPoint Int).timestamp ≤ 1000 - 100) :=
  ⟨by decide,
    (query_window_end sampleMetricNonAgg 1000 0 0 100 sampleRecordZero
      [⟨950, (1 : Int)⟩, ⟨800, 2⟩]).2.2 ⟨800, 2⟩ (by decide)⟩

/-- C7: for every Datadog metric configured with the cumulative flag, the
source query window starts at the (possibly reset) persisted
`counter_start_time` returned by `counterStartTime`, and the metric
descriptor emitted for it has kind CUMULATIVE; non-cumulative Datadog metrics
get kind GAUGE. -/
theorem datadog_cumulative_start_and_kind (m : Datadog.Metric)
    (now lastPoint : Int) (rec : Record.DatastoreMetricRecord) :
    (m.config.cumulative = true →
      Datadog.stackdriverDataFrom m now lastPoint rec =
        (Datadog.counterStartTime m now lastPoint
          rec).record.counterStartTime ∧
      (Datadog.metricDescriptor m).kind = Stackdriver.MetricKind.cumulative) ∧
    (m.config.cumulative = false →
      (Datadog.metricDescriptor m).kind = Stackdriver.MetricKind.gauge) := by
  constructor
  · intro hcum
    constructor
    · unfold Datadog.stackdriverDataFrom
      rw [if_pos hcum]
      unfold Datadog.counterStartTime Record.SetCounterStartTime
      split_ifs <;> rfl
    · unfold Datadog.metricDescriptor Datadog.metricKind
      rw [if_pos hcum]
  · intro hcum
    unfold Datadog.metricDescriptor Datadog.metricKind
    rw [if_neg]
    rw [hcum]
    exact Bool.false_ne_true

/-- Witness for C7: a concrete cumulative Datadog metric at `now = 100`,
`last_update = 95`: the query window starts at the record's counter start
time and the descriptor kind is CUMULATIVE. -/
theorem datadog_cumulative_start_and_kind_witness :
    sampleDDMetric.config.cumulative = true ∧
    Datadog.stackdriverDataFrom sampleDDMetric 100 95 sampleRecordZero =
      (Datadog.counterStartTime sampleDDMetric 100 95
        sampleRecordZero).record.counterStartTime ∧
    (Datadog.metricDescriptor sampleDDMetric).kind =
      Stackdriver.MetricKind.cumulative :=
  ⟨rfl,
    ((datadog_cumulative_start_and_kind sampleDDMetric 100 95
      sampleRecordZero).1 rfl).1,
    ((datadog_cumulative_start_and_kind sampleDDMetric 100 95
      sampleRecordZero).1 rfl).2⟩

/-- C3: for a metric update in which the metadata-store write succeeds, a
failure of the latest-timestamp query, of the source query, or of the
destination write makes `Update` record the error on the metric record via
`UpdateError` and return success (`none`); an error is returned only when the
record write itself fails. -/
theorem metric_update_error_isolation {α : Type}
    (rec : Record.DatastoreMetricRecord) (now : Int) (e r : String) (l : Int)
    (sourceData : Except String (List α)) (createTs : Except String Unit)
    (latest : Except String Int) (recWrite : Except String Unit)
    (ts : List α) :
    (recWrite = Except.ok () →
      (TsBridge.update rec now (Except.error e) sourceData createTs
          recWrite).ret = none ∧
      (TsBridge.update rec now (Except.error e) sourceData createTs
          recWrite).record =
        Record.UpdateError rec now ("failed to get latest timestamp: " ++ e)) ∧
    (recWrite = Except.ok () →
      (TsBridge.update rec now (Except.ok l)
          (Except.error e : Except String (List α)) createTs recWrite).ret =
        none ∧
      (TsBridge.update rec now (Except.ok l)
          (Except.error e : Except String (List α)) createTs
          recWrite).record =
        Record.UpdateError rec now ("failed to get data: " ++ e)) ∧
    (recWrite = Except.ok () → 0 < ts.length →
      (TsBridge.update rec now (Except.ok l) (Except.ok ts) (Except.error e)
          recWrite).ret = none ∧
      (TsBridge.update rec now (Except.ok l) (Except.ok ts) (Except.error e)
          recWrite).record =
        Record.UpdateError rec now ("failed to write to Stackdriver: " ++ e)) ∧
    ((TsBridge.update rec now latest sourceData createTs recWrite).ret =
        some r →
      recWrite = Except.error r) := by
  refine ⟨?_, ?_, ?_, ?_⟩
  · intro h
    subst h
    exact ⟨rfl, rfl⟩
  · intro h
    subst h
    exact ⟨rfl, rfl⟩
  · intro h hlen
    subst h
    unfold TsBridge.update
    dsimp only
    rw [if_pos hlen]
    exact ⟨rfl, rfl⟩
  · intro h
    rw [TsBridge.update_ret_eq] at h
    exact TsBridge.retOf_eq_some h

/-- Witness for C3: with a successful record write, a failing
latest-timestamp query is recorded as an ERROR status and the update returns
success. -/
theorem metric_update_error_isolation_witness :
    (Except.ok () : Except String Unit) = Except.ok () ∧
    (TsBridge.update sampleRecordZero 50 (Except.error "boom")
        (Except.ok ([] : List Int)) (Except.ok ()) (Except.ok ())).ret =
      none ∧
    (TsBridge.update sampleRecordZero 50 (Except.error "boom")
        (Except.ok ([] : List Int)) (Except.ok ()) (Except.ok ())).record =
      Record.UpdateError sampleRecordZero 50
        ("failed to get latest timestamp: " ++ "boom") :=
  ⟨rfl,
    ((metric_update_error_isolation sampleRecordZero 50 "boom" "r" 0
      (Except.ok ([] : List Int)) (Except.ok ()) (Except.error "boom")
      (Except.ok ()) ([] : List Int)).1 rfl).1,
    ((metric_update_error_isolation sampleRecordZero 50 "boom" "r" 0
      (Except.ok ([] : List Int)) (Except.ok ()) (Except.error "boom")
      (Except.ok ()) ([] : List Int)).1 rfl).2⟩

/-- C4: on both storage backends, `UpdateSuccess(points, msg)` sets
`LastStatus` to `"OK: " ++ msg` and `LastAttempt` to now, sets `LastUpdate`
to now exactly when `points > 0` (leaving it unchanged otherwise), and the
record is then persisted under its name. -/
theorem record_update_success_fields (now points : Int) (msg : String)
    (mB : BoltDB.StoredMetricRecord) (mD : Record.DatastoreMetricRecord)
    (sB : BoltDB.Store) (sD : Record.Store) :
    ((BoltDB.UpdateSuccess mB now points msg).lastStatus = "OK: " ++ msg ∧
     (BoltDB.UpdateSuccess mB now points msg).lastAttempt = now ∧
     (BoltDB.UpdateSuccess mB now points msg).lastUpdate =
       (if points > 0 then now else mB.lastUpdate) ∧
     BoltDB.write sB (BoltDB.UpdateSuccess mB now points msg) mB.name =
       some (BoltDB.UpdateSuccess mB now points msg)) ∧
    ((Record.UpdateSuccess mD now points msg).lastStatus = "OK: " ++ msg ∧
     (Record.UpdateSuccess mD now points msg).lastAttempt = now ∧
     (Record.UpdateSuccess mD now points msg).lastUpdate =
       (if points > 0 then now else mD.lastUpdate) ∧
     Record.write sD (Record.UpdateSuccess mD now points msg) mD.name =
       some (Record.UpdateSuccess mD now points msg)) := by
  have hBname : (BoltDB.UpdateSuccess mB now points msg).name = mB.name := by
    unfold BoltDB.UpdateSuccess
    split_ifs <;> rfl
  have hDname : (Record.UpdateSuccess mD now points msg).name = mD.name := by
    unfold Record.UpdateSuccess
    split_ifs <;> rfl
  constructor
  · refine ⟨?_, ?_, ?_, ?_⟩
    · unfold BoltDB.UpdateSuccess
      split_ifs <;> rfl
    · unfold BoltDB.UpdateSuccess
      split_ifs <;> rfl
    · unfold BoltDB.UpdateSuccess
      split_ifs <;> rfl
    · rw [← hBname]
      unfold BoltDB.write
      simp
  · refine ⟨?_, ?_, ?_, ?_⟩
    · unfold Record.UpdateSuccess
      split_ifs <;> rfl
    · unfold Record.UpdateSuccess
      split_ifs <;> rfl
    · unfold Record.UpdateSuccess
      split_ifs <;> rfl
    · rw [← hDname]
      unfold Record.write
      simp

/-- C10: on both storage backends, `UpdateError(e)` changes only `LastStatus`
(to `"ERROR: " ++ e`) and `LastAttempt` (to now); `LastUpdate`,
`CounterStartTime`, `Name` and `Query` are unchanged. -/
theorem record_update_error_frame (now : Int) (e : String)
    (mB : BoltDB.StoredMetricRecord) (mD : Record.DatastoreMetricRecord) :
    ((BoltDB.UpdateError mB now e).lastStatus = "ERROR: " ++ e ∧
     (BoltDB.UpdateError mB now e).lastAttempt = now ∧
     (BoltDB.UpdateError mB now e).lastUpdate = mB.lastUpdate ∧
     (BoltDB.UpdateError mB now e).counterStartTime = mB.counterStartTime ∧
     (BoltDB.UpdateError mB now e).name = mB.name ∧
     (BoltDB.UpdateError mB now e).query = mB.query) ∧
    ((Record.UpdateError mD now e).lastStatus = "ERROR: " ++ e ∧
     (Record.UpdateError mD now e).lastAttempt = now ∧
     (Record.UpdateError mD now e).lastUpdate = mD.lastUpdate ∧
     (Record.UpdateError mD now e).counterStartTime = mD.counterStartTime ∧
     (Record.UpdateError mD now e).name = mD.name ∧
     (Record.UpdateError mD now e).query = mD.query) :=
  ⟨⟨rfl, rfl, rfl, rfl, rfl, rfl⟩, ⟨rfl, rfl, rfl, rfl, rfl, rfl⟩⟩
